import Mathlib

/-!
Password strength checker (`script.js`)

A shallow embedding of the analysis part of the class `PasswordStrengthChecker`
of `script.js`: the methods `analyzePassword`, `isCommonPassword` and
`calculateStrength`, together with the `commonPasswords` field that the
constructor fills in (`PasswordStrengthChecker.new`).  The DOM handles and the
rendering methods hold no logic that the analysis reads and are left out.

Modelling decisions:

* A JavaScript string is a finite sequence of UTF-16 code units; `length`,
  `includes` and a regular expression without the `u` flag all work on code
  units.  `JSString` is therefore a list of code units (natural numbers, below
  `65536` for a real string).
* `String.prototype.toLowerCase` is a built-in of the host, driven by the
  Unicode tables of the engine.  It is an explicit argument `toLowerCase` of the
  two methods that reach it, so that every general statement holds for whatever
  the engine does.  What ECMAScript fixes for strings of ASCII code units is the
  predicate `LowersAscii`.
* A regular expression made of one character class, tested with `test`,
  succeeds exactly when some code unit of the subject is in the class.
* A JavaScript number is an IEEE 754 binary64 value.  `score` only takes the
  values `0..7` and is a natural number; the quotient and the product in
  `percentage` are rounded to binary64 (`Binary64`).
-/

namespace PasswordStrength

/-! ## JavaScript strings -/

/-- A JavaScript string: its sequence of UTF-16 code units. -/
abbrev JSString := List Nat

/-- UTF-16 code units of one Unicode scalar value (a surrogate pair above the
basic plane). -/
def utf16Char (c : Char) : List Nat :=
  if c.toNat < 0x10000 then [c.toNat]
  else [0xD800 + (c.toNat - 0x10000) / 0x400, 0xDC00 + (c.toNat - 0x10000) % 0x400]

/-- The JavaScript string written as the literal `s`. -/
def js (s : String) : JSString :=
  s.toList.flatMap utf16Char

/-- `s.includes(searchString)`: there is an index `k` with
`k + searchString.length ≤ s.length` at which the code units of `searchString`
occur in `s`. -/
def includes (s searchString : JSString) : Bool :=
  (List.range (s.length + 1)).any fun k =>
    decide (k + searchString.length ≤ s.length) &&
      decide ((s.drop k).take searchString.length = searchString)

/-- `regex.test(s)` for a regular expression that is a single character class:
some code unit of `s` belongs to the class. -/
def regexTest (cls : Nat → Bool) (s : JSString) : Bool :=
  s.any cls

/-- The class `[A-Z]`. -/
def classUpper (c : Nat) : Bool :=
  decide (0x41 ≤ c) && decide (c ≤ 0x5A)

/-- The class `[a-z]`. -/
def classLower (c : Nat) : Bool :=
  decide (0x61 ≤ c) && decide (c ≤ 0x7A)

/-- The class `\d`, which is `[0-9]` in JavaScript. -/
def classDigit (c : Nat) : Bool :=
  decide (0x30 ≤ c) && decide (c ≤ 0x39)

/-- The members of the class ``[!@#$%^&*()_+\-=\[\]{};':"\\|,.<>\/?]``, in the
order of the pattern and with the escapes `\-`, `\[`, `\]`, `\\` and `\/`
resolved to the character they stand for. -/
def specialClassChars : JSString :=
  js "!@#$%^&*()_+-=[]\x7b\x7d;\x27:\"\\|,.<>/?"

/-- The class ``[!@#$%^&*()_+\-=\[\]{};':"\\|,.<>\/?]``. -/
def classSpecial (c : Nat) : Bool :=
  decide (c ∈ specialClassChars)

/-- Lowercasing of one ASCII code unit: `A..Z` go to `a..z`, the rest stays. -/
def asciiLowerUnit (c : Nat) : Nat :=
  if 0x41 ≤ c ∧ c ≤ 0x5A then c + 0x20 else c

/-- Lowercasing that maps `A..Z` to `a..z` and leaves every other code unit
alone: what `toLowerCase` does on a string of ASCII code units. -/
def asciiToLowerCase (s : JSString) : JSString :=
  s.map asciiLowerUnit

/-- What ECMAScript fixes of `toLowerCase` on strings of ASCII code units: the
result is the unit-wise ASCII lowercasing. -/
def LowersAscii (toLowerCase : JSString → JSString) : Prop :=
  ∀ s : JSString, (∀ c ∈ s, c < 0x80) → toLowerCase s = asciiToLowerCase s

/-! ## Numbers

`score / 7` and the product with `100` are computed in IEEE 754 binary64 with
the default rounding (to nearest, ties to even).  Only finite non-negative
values occur. -/

/-- A finite non-negative binary64 value, `mant * 2 ^ exp`. -/
structure Binary64 where
  mant : Nat
  exp : Int
  deriving DecidableEq

namespace Binary64

/-- The rational number a value stands for. -/
def toRat (x : Binary64) : ℚ :=
  (x.mant : ℚ) * (2 : ℚ) ^ x.exp

/-- Numerator of the value as a fraction of natural numbers. -/
def num (x : Binary64) : Nat :=
  x.mant * 2 ^ x.exp.toNat

/-- Denominator of the value as a fraction of natural numbers. -/
def den (x : Binary64) : Nat :=
  2 ^ (-x.exp).toNat

/-- Halving loop behind `floorLog2`; the first argument bounds the number of
steps. -/
def floorLog2Aux : Nat → Nat → Nat
  | 0, _ => 0
  | fuel + 1, n => if n ≥ 2 then floorLog2Aux fuel (n / 2) + 1 else 0

/-- The position of the leading bit of `n`: the floor of its binary logarithm
(`0` for `n = 0`). -/
def floorLog2 (n : Nat) : Nat :=
  floorLog2Aux n n

/-- The binary64 value nearest to the rational `n / d` (with `d ≠ 0`, below the
overflow threshold), ties to even: the significand has 53 bits, or fewer in the
subnormal range where the exponent stops at `-1074`. -/
def round (n d : Nat) : Binary64 :=
  if n = 0 then ⟨0, 0⟩
  else
    let e0 : Int := (floorLog2 n : Int) - (floorLog2 d : Int) - 52
    let e1 : Int := if n * 2 ^ (-e0).toNat / (d * 2 ^ e0.toNat) < 2 ^ 52 then e0 - 1 else e0
    let e : Int := max e1 (-1074)
    let scaledN := n * 2 ^ (-e).toNat
    let scaledD := d * 2 ^ e.toNat
    let q := scaledN / scaledD
    let r := scaledN % scaledD
    let m := if 2 * r < scaledD then q else if scaledD < 2 * r then q + 1 else q + q % 2
    ⟨m, e⟩

/-- The number value of a non-negative integer. -/
def ofNat (n : Nat) : Binary64 :=
  round n 1

/-- The operator `/` on numbers (divisor not zero). -/
def div (x y : Binary64) : Binary64 :=
  round (x.num * y.den) (x.den * y.num)

/-- The operator `*` on numbers. -/
def mul (x y : Binary64) : Binary64 :=
  round (x.num * y.num) (x.den * y.den)

end Binary64

/-! ## The checker object -/

/-- The part of a `PasswordStrengthChecker` instance that the analysis reads. -/
structure PasswordStrengthChecker where
  commonPasswords : List JSString

/-- The `checks` object of `analyzePassword`. -/
structure Checks where
  length : Bool
  length12 : Bool
  uppercase : Bool
  lowercase : Bool
  numbers : Bool
  special : Bool
  noCommon : Bool
  deriving DecidableEq

/-- The object returned by `analyzePassword`. -/
structure Report where
  checks : Checks
  score : Nat
  maxScore : Nat
  strength : String
  percentage : Binary64
  suggestions : List String
  deriving DecidableEq

namespace PasswordStrengthChecker

/-- The object built by `constructor()`: the `commonPasswords` field. -/
def new : PasswordStrengthChecker where
  commonPasswords :=
    [ js "password", js "123456", js "123456789", js "qwerty", js "abc123", js "password123",
      js "admin", js "letmein", js "welcome", js "monkey", js "1234567890", js "password1",
      js "123123", js "qwerty123", js "password1234", js "admin123", js "root", js "toor",
      js "pass", js "test", js "guest", js "user", js "login", js "default" ]

/-- `isCommonPassword(password)`. -/
def isCommonPassword (self : PasswordStrengthChecker) (toLowerCase : JSString → JSString)
    (password : JSString) : Bool :=
  let lowerPassword := toLowerCase password
  self.commonPasswords.any fun common =>
    includes lowerPassword common || includes common lowerPassword

/-- `calculateStrength(score, length)`; the second argument is not read. -/
def calculateStrength (_self : PasswordStrengthChecker) (score : Nat) (_length : Nat) : String :=
  if score ≤ 2 then "weak"
  else if score ≤ 3 then "fair"
  else if score ≤ 4 then "good"
  else if score ≤ 6 then "strong"
  else "very-strong"

/-- `analyzePassword(password)`. -/
def analyzePassword (self : PasswordStrengthChecker) (toLowerCase : JSString → JSString)
    (password : JSString) : Report :=
  let checks : Checks :=
    { length := decide (password.length ≥ 8)
      length12 := decide (password.length ≥ 12)
      uppercase := regexTest classUpper password
      lowercase := regexTest classLower password
      numbers := regexTest classDigit password
      special := regexTest classSpecial password
      noCommon := !self.isCommonPassword toLowerCase password }
  let score : Nat := 0
  let suggestions : List String := []
  let score := if checks.length then score + 1 else score
  let score := if checks.length12 then score + 1 else score
  let score := if checks.uppercase then score + 1 else score
  let score := if checks.lowercase then score + 1 else score
  let score := if checks.numbers then score + 1 else score
  let score := if checks.special then score + 1 else score
  let score := if checks.noCommon then score + 1 else score
  let suggestions :=
    if !checks.length then suggestions ++ ["Use at least 8 characters"] else suggestions
  let suggestions :=
    if !checks.length12 && decide (password.length ≥ 8) then
      suggestions ++ ["Consider using 12+ characters for better security"]
    else suggestions
  let suggestions :=
    if !checks.uppercase then suggestions ++ ["Add uppercase letters"] else suggestions
  let suggestions :=
    if !checks.lowercase then suggestions ++ ["Add lowercase letters"] else suggestions
  let suggestions :=
    if !checks.numbers then suggestions ++ ["Include numbers"] else suggestions
  let suggestions :=
    if !checks.special then suggestions ++ ["Add special characters (!@#$%^&*)"] else suggestions
  let suggestions :=
    if !checks.noCommon then suggestions ++ ["Avoid common passwords"] else suggestions
  let suggestions :=
    if decide (password.length > 0) && decide (password.length < 6) then
      suggestions ++ ["Password is too short - very weak security"]
    else suggestions
  let strength := self.calculateStrength score password.length
  { checks := checks
    score := score
    maxScore := 7
    strength := strength
    percentage := Binary64.mul (Binary64.div (Binary64.ofNat score) (Binary64.ofNat 7))
      (Binary64.ofNat 100)
    suggestions := suggestions }

end PasswordStrengthChecker

/-! ## Specification-side definitions -/

/-- The seven checks of a `checks` object, in the order of the source. -/
def Checks.toList (c : Checks) : List Bool :=
  [c.length, c.length12, c.uppercase, c.lowercase, c.numbers, c.special, c.noCommon]

/-- The number of checks that are true. -/
def Checks.countTrue (c : Checks) : Nat :=
  c.toList.count true

/-- The strength bands as the specification words them; a score above `7` has
no band. -/
def specStrength (score : Nat) : Option String :=
  if score ≤ 2 then some "weak"
  else if score = 3 then some "fair"
  else if score = 4 then some "good"
  else if 5 ≤ score ∧ score ≤ 6 then some "strong"
  else if score = 7 then some "very-strong"
  else none

/-- The special characters as the criteria table lists them:
``! @ # $ % ^ & * ( ) _ + - = [ ] { } ; ' : " \ | , . < > / ?``, by code unit. -/
def specSpecialChars : List Nat :=
  [0x21, 0x40, 0x23, 0x24, 0x25, 0x5E, 0x26, 0x2A, 0x28, 0x29, 0x5F, 0x2B, 0x2D, 0x3D, 0x5B,
   0x5D, 0x7B, 0x7D, 0x3B, 0x27, 0x3A, 0x22, 0x5C, 0x7C, 0x2C, 0x2E, 0x3C, 0x3E, 0x2F, 0x3F]

/-- The eight suggestion texts in their fixed order. -/
def suggestionTexts : List String :=
  [ "Use at least 8 characters",
    "Consider using 12+ characters for better security",
    "Add uppercase letters",
    "Add lowercase letters",
    "Include numbers",
    "Add special characters (!@#$%^&*)",
    "Avoid common passwords",
    "Password is too short - very weak security" ]

/-- The conditions of the eight suggestions as the specification words them,
from the checks and the length of the password. -/
def specSuggestionConditions (c : Checks) (len : Nat) : List Bool :=
  [ !c.length,
    !c.length12 && c.length,
    !c.uppercase,
    !c.lowercase,
    !c.numbers,
    !c.special,
    !c.noCommon,
    decide (0 < len ∧ len < 6) ]

/-- The suggestions of the specification: the eight texts in order, each kept
when its condition holds. -/
def specSuggestions (c : Checks) (len : Nat) : List String :=
  (((specSuggestionConditions c len).zip suggestionTexts).filter fun e => e.1).map fun e => e.2

/-- The seven suggestion texts as the specification words them. -/
def specSuggestionTexts : List String :=
  [ "use at least 8 characters",
    "consider 12+ characters for better security",
    "add uppercase letters",
    "add lowercase letters",
    "include numbers",
    "add special characters",
    "avoid common passwords" ]

/-! ## Calls on the object

The three methods once more, this time with their effects: a method body is a
program over the object `this`, which it may read and write, and a call returns
a value together with the object as the body leaves it.  Reading
`this.commonPasswords` is a `get`, the method calls `this.isCommonPassword(..)`
and `this.calculateStrength(..)` are steps of the program, and the callback of
`some` is itself a step.  The regular expressions are objects with a
`lastIndex`; each evaluation of a literal makes a new one, which `test` may
update.  `score` and `suggestions` are local variables of one call. -/

/-- A `RegExp` object whose pattern is a single character class. -/
structure RegExp where
  cls : Nat → Bool
  global : Bool
  sticky : Bool
  lastIndex : Nat

/-- The object a regular expression literal without flags evaluates to. -/
def RegExp.literal (cls : Nat → Bool) : RegExp :=
  { cls := cls, global := false, sticky := false, lastIndex := 0 }

/-- `r.test(s)`: the result and the object afterwards.  The search starts at
`lastIndex` when the object is global or sticky and at `0` otherwise; a sticky
object only tries the starting position; a global or sticky object records the
end of the match in `lastIndex`, or `0` after a failure, and any other object
is left as it is. -/
def RegExp.test (r : RegExp) (s : JSString) : Bool × RegExp :=
  let tracked := r.global || r.sticky
  let start := if tracked then r.lastIndex else 0
  let positions := if r.sticky then [start] else List.range' start (s.length + 1 - start)
  match positions.find? fun i => (s[i]?).any r.cls with
  | some i => (true, if tracked then { r with lastIndex := i + 1 } else r)
  | none => (false, if tracked then { r with lastIndex := 0 } else r)

namespace PasswordStrengthChecker

/-- The body of `isCommonPassword(password)` as a program over `this`. -/
def isCommonPasswordM (toLowerCase : JSString → JSString) (password : JSString) :
    StateM PasswordStrengthChecker Bool := do
  let lowerPassword := toLowerCase password
  let this ← get
  this.commonPasswords.anyM fun common =>
    pure (includes lowerPassword common || includes common lowerPassword)

/-- The body of `calculateStrength(score, length)` as a program over `this`. -/
def calculateStrengthM (score : Nat) (_length : Nat) : StateM PasswordStrengthChecker String := do
  if score ≤ 2 then return "weak"
  if score ≤ 3 then return "fair"
  if score ≤ 4 then return "good"
  if score ≤ 6 then return "strong"
  return "very-strong"

/-- The body of `analyzePassword(password)` as a program over `this`. -/
def analyzePasswordM (toLowerCase : JSString → JSString) (password : JSString) :
    StateM PasswordStrengthChecker Report := do
  let checks : Checks :=
    { length := decide (password.length ≥ 8)
      length12 := decide (password.length ≥ 12)
      uppercase := ((RegExp.literal classUpper).test password).1
      lowercase := ((RegExp.literal classLower).test password).1
      numbers := ((RegExp.literal classDigit).test password).1
      special := ((RegExp.literal classSpecial).test password).1
      noCommon := !(← isCommonPasswordM toLowerCase password) }
  let score : Nat := 0
  let suggestions : List String := []
  let score := if checks.length then score + 1 else score
  let score := if checks.length12 then score + 1 else score
  let score := if checks.uppercase then score + 1 else score
  let score := if checks.lowercase then score + 1 else score
  let score := if checks.numbers then score + 1 else score
  let score := if checks.special then score + 1 else score
  let score := if checks.noCommon then score + 1 else score
  let suggestions :=
    if !checks.length then suggestions ++ ["Use at least 8 characters"] else suggestions
  let suggestions :=
    if !checks.length12 && decide (password.length ≥ 8) then
      suggestions ++ ["Consider using 12+ characters for better security"]
    else suggestions
  let suggestions :=
    if !checks.uppercase then suggestions ++ ["Add uppercase letters"] else suggestions
  let suggestions :=
    if !checks.lowercase then suggestions ++ ["Add lowercase letters"] else suggestions
  let suggestions :=
    if !checks.numbers then suggestions ++ ["Include numbers"] else suggestions
  let suggestions :=
    if !checks.special then suggestions ++ ["Add special characters (!@#$%^&*)"] else suggestions
  let suggestions :=
    if !checks.noCommon then suggestions ++ ["Avoid common passwords"] else suggestions
  let suggestions :=
    if decide (password.length > 0) && decide (password.length < 6) then
      suggestions ++ ["Password is too short - very weak security"]
    else suggestions
  let strength ← calculateStrengthM score password.length
  return { checks := checks
           score := score
           maxScore := 7
           strength := strength
           percentage := Binary64.mul (Binary64.div (Binary64.ofNat score) (Binary64.ofNat 7))
             (Binary64.ofNat 100)
           suggestions := suggestions }

end PasswordStrengthChecker

/-- The call `checker.analyzePassword(password)` as a step on the object: the
report and the object after the body has run. -/
def analyzePasswordCall (toLowerCase : JSString → JSString) (self : PasswordStrengthChecker)
    (password : JSString) : Report × PasswordStrengthChecker :=
  (PasswordStrengthChecker.analyzePasswordM toLowerCase password).run self

/-- Calls of `analyzePassword` on one object, one after the other: the reports
in order and the object after the last call. -/
def runCalls (toLowerCase : JSString → JSString) :
    PasswordStrengthChecker → List JSString → List Report × PasswordStrengthChecker
  | self, [] => ([], self)
  | self, password :: rest =>
    let step := analyzePasswordCall toLowerCase self password
    let tail := runCalls toLowerCase step.2 rest
    (step.1 :: tail.1, tail.2)

/-! ## Basic facts -/

/-- The method `includes` decides whether the search string is a contiguous
part of the subject. -/
theorem includes_iff (s t : JSString) : includes s t = true ↔ t <:+: s := by
  unfold includes
  rw [List.any_eq_true]
  constructor
  · rintro ⟨k, _, hk⟩
    rw [Bool.and_eq_true, decide_eq_true_eq, decide_eq_true_eq] at hk
    refine ⟨s.take k, (s.drop k).drop t.length, ?_⟩
    have h1 : List.take t.length (List.drop k s) ++ List.drop t.length (List.drop k s)
        = List.drop k s := List.take_append_drop _ _
    rw [hk.2] at h1
    rw [List.append_assoc, h1, List.take_append_drop]
  · rintro ⟨a, b, rfl⟩
    refine ⟨a.length, ?_, ?_⟩
    · simp only [List.mem_range, List.length_append]
      omega
    · rw [Bool.and_eq_true, decide_eq_true_eq, decide_eq_true_eq]
      constructor
      · simp only [List.length_append]
        omega
      · simp

/-- A class test succeeds when some code unit is in the class. -/
theorem regexTest_iff (cls : Nat → Bool) (s : JSString) :
    regexTest cls s = true ↔ ∃ u ∈ s, cls u = true := by
  simp [regexTest, List.any_eq_true]

/-- The class of the pattern and the list of the criteria table have the same
members. -/
theorem classSpecial_iff (u : Nat) : classSpecial u = true ↔ u ∈ specSpecialChars := by
  have h : specialClassChars = specSpecialChars := by decide
  simp [classSpecial, h]

/-- The halving loop computes the binary logarithm once the bound covers the
argument. -/
theorem Binary64.floorLog2Aux_eq_log2 (fuel n : Nat) (h : n ≤ fuel) :
    Binary64.floorLog2Aux fuel n = Nat.log2 n := by
  induction fuel generalizing n with
  | zero =>
    have h0 : n = 0 := by omega
    subst h0
    rw [Nat.log2]
    simp [Binary64.floorLog2Aux]
  | succ k ih =>
    rw [Nat.log2, Binary64.floorLog2Aux]
    split
    · rw [ih]
      omega
    · rfl

/-- The position of the leading bit is the binary logarithm of the library. -/
theorem Binary64.floorLog2_eq_log2 (n : Nat) : Binary64.floorLog2 n = Nat.log2 n :=
  Binary64.floorLog2Aux_eq_log2 n n (Nat.le_refl n)

set_option maxRecDepth 100000 in
/-- The binary64 results of `(score / 7) * 100` for the eight scores:
`0`, `14.285714285714285`, `28.57142857142857`, `42.857142857142854`,
`57.14285714285714`, `71.42857142857143`, `85.71428571428571` and `100`. -/
theorem Binary64.percentage_table :
    Binary64.mul (Binary64.div (Binary64.ofNat 0) (Binary64.ofNat 7)) (Binary64.ofNat 100)
        = ⟨0, 0⟩
      ∧ Binary64.mul (Binary64.div (Binary64.ofNat 1) (Binary64.ofNat 7)) (Binary64.ofNat 100)
        = ⟨8042142191733028, -49⟩
      ∧ Binary64.mul (Binary64.div (Binary64.ofNat 2) (Binary64.ofNat 7)) (Binary64.ofNat 100)
        = ⟨8042142191733028, -48⟩
      ∧ Binary64.mul (Binary64.div (Binary64.ofNat 3) (Binary64.ofNat 7)) (Binary64.ofNat 100)
        = ⟨6031606643799771, -47⟩
      ∧ Binary64.mul (Binary64.div (Binary64.ofNat 4) (Binary64.ofNat 7)) (Binary64.ofNat 100)
        = ⟨8042142191733028, -47⟩
      ∧ Binary64.mul (Binary64.div (Binary64.ofNat 5) (Binary64.ofNat 7)) (Binary64.ofNat 100)
        = ⟨5026338869833143, -46⟩
      ∧ Binary64.mul (Binary64.div (Binary64.ofNat 6) (Binary64.ofNat 7)) (Binary64.ofNat 100)
        = ⟨6031606643799771, -46⟩
      ∧ Binary64.mul (Binary64.div (Binary64.ofNat 7) (Binary64.ofNat 7)) (Binary64.ofNat 100)
        = ⟨7036874417766400, -46⟩ := by
  refine ⟨?_, ?_, ?_, ?_, ?_, ?_, ?_, ?_⟩ <;> rfl

/-- Which texts the suggestions of the specification hold. -/
theorem mem_specSuggestions (c : Checks) (len : Nat) :
    ("Use at least 8 characters" ∈ specSuggestions c len ↔ c.length = false)
      ∧ ("Consider using 12+ characters for better security" ∈ specSuggestions c len ↔
          c.length12 = false ∧ c.length = true)
      ∧ ("Add uppercase letters" ∈ specSuggestions c len ↔ c.uppercase = false)
      ∧ ("Add lowercase letters" ∈ specSuggestions c len ↔ c.lowercase = false)
      ∧ ("Include numbers" ∈ specSuggestions c len ↔ c.numbers = false)
      ∧ ("Add special characters (!@#$%^&*)" ∈ specSuggestions c len ↔ c.special = false)
      ∧ ("Avoid common passwords" ∈ specSuggestions c len ↔ c.noCommon = false)
      ∧ ("Password is too short - very weak security" ∈ specSuggestions c len ↔
          0 < len ∧ len < 6) := by
  rcases c with ⟨b1, b2, b3, b4, b5, b6, b7⟩
  by_cases h : 0 < len ∧ len < 6
  · simp only [specSuggestions, specSuggestionConditions, h, decide_True]
    cases b1 <;> cases b2 <;> cases b3 <;> cases b4 <;> cases b5 <;> cases b6 <;> cases b7 <;>
      decide
  · simp only [specSuggestions, specSuggestionConditions, h, decide_False]
    cases b1 <;> cases b2 <;> cases b3 <;> cases b4 <;> cases b5 <;> cases b6 <;> cases b7 <;>
      decide

/-- The suggestions of the specification are empty exactly when every check
holds and the length is not strictly between 0 and 6. -/
theorem specSuggestions_eq_nil_iff (c : Checks) (len : Nat) :
    specSuggestions c len = [] ↔
      c = { length := true, length12 := true, uppercase := true, lowercase := true,
            numbers := true, special := true, noCommon := true }
        ∧ ¬(0 < len ∧ len < 6) := by
  rcases c with ⟨b1, b2, b3, b4, b5, b6, b7⟩
  by_cases h : 0 < len ∧ len < 6
  · simp only [specSuggestions, specSuggestionConditions, h, decide_True]
    cases b1 <;> cases b2 <;> cases b3 <;> cases b4 <;> cases b5 <;> cases b6 <;> cases b7 <;>
      decide
  · simp only [specSuggestions, specSuggestionConditions, h, decide_False]
    cases b1 <;> cases b2 <;> cases b3 <;> cases b4 <;> cases b5 <;> cases b6 <;> cases b7 <;>
      decide

/-- The suggestions of the specification never have more than seven entries. -/
theorem specSuggestions_length_le (c : Checks) (len : Nat) :
    (specSuggestions c len).length ≤ 7 := by
  rcases c with ⟨b1, b2, b3, b4, b5, b6, b7⟩
  simp only [specSuggestions, specSuggestionConditions]
  generalize decide (0 < len ∧ len < 6) = b8
  cases b1 <;> cases b2 <;> cases b3 <;> cases b4 <;> cases b5 <;> cases b6 <;> cases b7 <;>
    cases b8 <;> decide

/-- A regular expression without flags finds what the class test finds and is
not changed by `test`. -/
theorem RegExp.test_literal (cls : Nat → Bool) (s : JSString) :
    (RegExp.literal cls).test s = (regexTest cls s, RegExp.literal cls) := by
  simp only [RegExp.test, RegExp.literal, Bool.or_self, Bool.false_eq_true, if_false,
    Nat.sub_zero]
  cases hfind : (List.range' 0 (s.length + 1)).find? fun i => (s[i]?).any cls with
  | none =>
    have hnone : regexTest cls s = false := by
      rw [Bool.eq_false_iff, Ne, regexTest_iff]
      rintro ⟨u, hu, hc⟩
      obtain ⟨i, hi, hget⟩ := List.getElem_of_mem hu
      rw [List.find?_eq_none] at hfind
      have hmem : i ∈ List.range' 0 (s.length + 1) := by
        rw [List.mem_range'_1]
        omega
      apply hfind i hmem
      rw [List.getElem?_eq_getElem hi, hget]
      simpa using hc
    rw [hnone]
  | some i =>
    have hsome : regexTest cls s = true := by
      rw [regexTest_iff]
      have hp := List.find?_some hfind
      cases hget : s[i]? with
      | none => rw [hget] at hp; simp at hp
      | some u =>
        rw [hget] at hp
        exact ⟨u, List.getElem?_mem hget, by simpa using hp⟩
    rw [hsome]

/-- The loop of `some` over a callback without effects returns what `any`
returns and leaves the object as it is. -/
theorem anyM_pure_run (p : JSString → Bool) (l : List JSString)
    (self : PasswordStrengthChecker) :
    (l.anyM (m := StateM PasswordStrengthChecker) fun c => pure (p c)).run self
      = (l.any p, self) := by
  induction l with
  | nil => rfl
  | cons a t ih =>
    simp only [List.anyM, List.any_cons]
    cases h : p a
    · simpa [StateT.run, bind, StateT.bind, pure, StateT.pure, h] using ih
    · simp [StateT.run, bind, StateT.bind, pure, StateT.pure, h]

/-- The body of `isCommonPassword` returns the value of the function and does
not write to the object. -/
theorem PasswordStrengthChecker.isCommonPasswordM_run (toLowerCase : JSString → JSString)
    (password : JSString) (self : PasswordStrengthChecker) :
    (PasswordStrengthChecker.isCommonPasswordM toLowerCase password).run self
      = (self.isCommonPassword toLowerCase password, self) := by
  simp only [PasswordStrengthChecker.isCommonPasswordM,
    PasswordStrengthChecker.isCommonPassword]
  simp only [StateT.run_bind, StateT.run_get, Id.pure_eq, Id.bind_eq]
  exact anyM_pure_run _ _ _

/-- The body of `calculateStrength` returns the value of the function and does
not write to the object. -/
theorem PasswordStrengthChecker.calculateStrengthM_run (score length : Nat)
    (self : PasswordStrengthChecker) :
    (PasswordStrengthChecker.calculateStrengthM score length).run self
      = (self.calculateStrength score length, self) := by
  unfold PasswordStrengthChecker.calculateStrengthM PasswordStrengthChecker.calculateStrength
  split_ifs <;> simp_all [StateT.run, pure, StateT.pure, bind, StateT.bind]

/-- The body of `analyzePassword` returns the report of the function and does
not write to the object. -/
theorem PasswordStrengthChecker.analyzePasswordM_run (toLowerCase : JSString → JSString)
    (password : JSString) (self : PasswordStrengthChecker) :
    (PasswordStrengthChecker.analyzePasswordM toLowerCase password).run self
      = (self.analyzePassword toLowerCase password, self) := by
  unfold PasswordStrengthChecker.analyzePasswordM
  rw [StateT.run_bind, PasswordStrengthChecker.isCommonPasswordM_run]
  simp only [RegExp.test_literal, StateT.run_bind,
    PasswordStrengthChecker.calculateStrengthM_run, StateT.run_pure, Id.pure_eq, Id.bind_eq]
  rfl

/-- A call returns the report of the function and the object it was made on. -/
theorem analyzePasswordCall_eq (toLowerCase : JSString → JSString)
    (self : PasswordStrengthChecker) (password : JSString) :
    analyzePasswordCall toLowerCase self password
      = (self.analyzePassword toLowerCase password, self) :=
  PasswordStrengthChecker.analyzePasswordM_run toLowerCase password self

/-- A sequence of calls ends on the object it started on. -/
theorem runCalls_snd (toLowerCase : JSString → JSString) (self : PasswordStrengthChecker)
    (passwords : List JSString) : (runCalls toLowerCase self passwords).2 = self := by
  induction passwords generalizing self with
  | nil => rfl
  | cons password rest ih =>
    simp only [runCalls, analyzePasswordCall_eq]
    exact ih self

/-- The reports of a sequence of calls are the reports of the single calls. -/
theorem runCalls_fst (toLowerCase : JSString → JSString) (self : PasswordStrengthChecker)
    (passwords : List JSString) :
    (runCalls toLowerCase self passwords).1
      = passwords.map fun p => (analyzePasswordCall toLowerCase self p).1 := by
  induction passwords generalizing self with
  | nil => rfl
  | cons password rest ih =>
    simp only [runCalls, List.map_cons, analyzePasswordCall_eq]
    rw [ih self]
    simp only [analyzePasswordCall_eq]

/-- Appending code units keeps a successful class test. -/
theorem regexTest_append_le (cls : Nat → Bool) (p s : JSString) :
    (regexTest cls p).toNat ≤ (regexTest cls (p ++ s)).toNat := by
  unfold regexTest
  rw [List.any_append]
  cases List.any p cls <;> simp [Bool.toNat_le]

/-- The unit-wise lowercasing satisfies what ECMAScript fixes on ASCII. -/
theorem lowersAscii_asciiToLowerCase : LowersAscii asciiToLowerCase :=
  fun _ _ => rfl

namespace PasswordStrengthChecker

/-- The common-password test in terms of contiguous parts. -/
theorem isCommonPassword_iff (self : PasswordStrengthChecker)
    (toLowerCase : JSString → JSString) (password : JSString) :
    self.isCommonPassword toLowerCase password = true ↔
      ∃ c ∈ self.commonPasswords,
        c <:+: toLowerCase password ∨ toLowerCase password <:+: c := by
  simp only [isCommonPassword, List.any_eq_true, Bool.or_eq_true, includes_iff]

/-- The suggestions of the report agree with the table of the specification. -/
theorem analyzePassword_suggestions (self : PasswordStrengthChecker)
    (toLowerCase : JSString → JSString) (password : JSString) :
    (self.analyzePassword toLowerCase password).suggestions
      = specSuggestions (self.analyzePassword toLowerCase password).checks password.length := by
  simp only [analyzePassword, specSuggestions, specSuggestionConditions, suggestionTexts]
  have h6 : (decide (password.length > 0) && decide (password.length < 6))
      = decide (0 < password.length ∧ password.length < 6) := by
    simp [Bool.decide_and]
  rw [h6]
  generalize decide (0 < password.length ∧ password.length < 6) = b8
  generalize decide (password.length ≥ 8) = b1
  generalize decide (password.length ≥ 12) = b2
  generalize regexTest classUpper password = b3
  generalize regexTest classLower password = b4
  generalize regexTest classDigit password = b5
  generalize regexTest classSpecial password = b6
  generalize (!self.isCommonPassword toLowerCase password) = b7
  cases b1 <;> cases b2 <;> cases b3 <;> cases b4 <;> cases b5 <;> cases b6 <;> cases b7 <;>
    cases b8 <;> rfl

/-- The score is the sum of the seven increments. -/
theorem analyzePassword_score (self : PasswordStrengthChecker)
    (toLowerCase : JSString → JSString) (password : JSString) :
    (self.analyzePassword toLowerCase password).score
      = (self.analyzePassword toLowerCase password).checks.length.toNat
        + (self.analyzePassword toLowerCase password).checks.length12.toNat
        + (self.analyzePassword toLowerCase password).checks.uppercase.toNat
        + (self.analyzePassword toLowerCase password).checks.lowercase.toNat
        + (self.analyzePassword toLowerCase password).checks.numbers.toNat
        + (self.analyzePassword toLowerCase password).checks.special.toNat
        + (self.analyzePassword toLowerCase password).checks.noCommon.toNat := by
  simp only [analyzePassword]
  generalize decide (password.length ≥ 8) = b1
  generalize decide (password.length ≥ 12) = b2
  generalize regexTest classUpper password = b3
  generalize regexTest classLower password = b4
  generalize regexTest classDigit password = b5
  generalize regexTest classSpecial password = b6
  generalize (!self.isCommonPassword toLowerCase password) = b7
  cases b1 <;> cases b2 <;> cases b3 <;> cases b4 <;> cases b5 <;> cases b6 <;> cases b7 <;> rfl

/-- The checks of the report, field by field. -/
theorem analyzePassword_checks (self : PasswordStrengthChecker)
    (toLowerCase : JSString → JSString) (password : JSString) :
    (self.analyzePassword toLowerCase password).checks =
      { length := decide (password.length ≥ 8)
        length12 := decide (password.length ≥ 12)
        uppercase := regexTest classUpper password
        lowercase := regexTest classLower password
        numbers := regexTest classDigit password
        special := regexTest classSpecial password
        noCommon := !self.isCommonPassword toLowerCase password } := rfl

/-- The score never exceeds seven. -/
theorem analyzePassword_score_le (self : PasswordStrengthChecker)
    (toLowerCase : JSString → JSString) (password : JSString) :
    (self.analyzePassword toLowerCase password).score ≤ 7 := by
  rw [analyzePassword_score]
  generalize (self.analyzePassword toLowerCase password).checks = c
  rcases c with ⟨b1, b2, b3, b4, b5, b6, b7⟩
  cases b1 <;> cases b2 <;> cases b3 <;> cases b4 <;> cases b5 <;> cases b6 <;> cases b7 <;> decide

/-- The strength of the report is `calculateStrength` of its score. -/
theorem analyzePassword_strength (self : PasswordStrengthChecker)
    (toLowerCase : JSString → JSString) (password : JSString) :
    (self.analyzePassword toLowerCase password).strength
      = self.calculateStrength (self.analyzePassword toLowerCase password).score
          password.length := rfl

/-- The strength is `very-strong` exactly from score `7` on. -/
theorem calculateStrength_very_strong_iff (self : PasswordStrengthChecker)
    (score length : Nat) :
    self.calculateStrength score length = "very-strong" ↔ 7 ≤ score := by
  unfold calculateStrength
  split_ifs <;> constructor <;> intro hh <;>
    first
      | omega
      | exact absurd hh (by decide)
      | rfl

/-- On a password of ASCII code units the common-password test does not depend
on the engine. -/
theorem isCommonPassword_ascii (self : PasswordStrengthChecker)
    (toLowerCase : JSString → JSString) (h : LowersAscii toLowerCase) (password : JSString)
    (hp : ∀ c ∈ password, c < 0x80) :
    self.isCommonPassword toLowerCase password
      = self.isCommonPassword asciiToLowerCase password := by
  simp only [isCommonPassword, h password hp]

/-- On a password of ASCII code units the report does not depend on the
engine. -/
theorem analyzePassword_ascii (self : PasswordStrengthChecker)
    (toLowerCase : JSString → JSString) (h : LowersAscii toLowerCase) (password : JSString)
    (hp : ∀ c ∈ password, c < 0x80) :
    self.analyzePassword toLowerCase password
      = self.analyzePassword asciiToLowerCase password := by
  simp only [analyzePassword, isCommonPassword_ascii self toLowerCase h password hp]

/-- The percentage of the report is the binary64 expression over its score. -/
theorem analyzePassword_percentage (self : PasswordStrengthChecker)
    (toLowerCase : JSString → JSString) (password : JSString) :
    (self.analyzePassword toLowerCase password).percentage
      = Binary64.mul
          (Binary64.div (Binary64.ofNat (self.analyzePassword toLowerCase password).score)
            (Binary64.ofNat 7))
          (Binary64.ofNat 100) := rfl

end PasswordStrengthChecker

/-! ## The claims -/

open PasswordStrengthChecker

/-- C1: for every password the score of `analyzePassword` is the number of the
seven checks (length, length12, uppercase, lowercase, numbers, special,
noCommon) that are true in the returned checks object, and it lies between `0`
and `7`. -/
theorem score_eq_count_true (self : PasswordStrengthChecker)
    (toLowerCase : JSString → JSString) (password : JSString) :
    (self.analyzePassword toLowerCase password).score
        = (self.analyzePassword toLowerCase password).checks.countTrue
      ∧ 0 ≤ (self.analyzePassword toLowerCase password).score
      ∧ (self.analyzePassword toLowerCase password).score ≤ 7 := by
  refine ⟨?_, Nat.zero_le _, analyzePassword_score_le self toLowerCase password⟩
  rw [analyzePassword_score]
  generalize (self.analyzePassword toLowerCase password).checks = c
  rcases c with ⟨b1, b2, b3, b4, b5, b6, b7⟩
  cases b1 <;> cases b2 <;> cases b3 <;> cases b4 <;> cases b5 <;> cases b6 <;> cases b7 <;> rfl

/-- C2: the strength of `analyzePassword` is the band of the score alone
(weak up to 2, fair at 3, good at 4, strong at 5 and 6, very-strong at 7), so
two passwords with the same score have the same strength, whatever their
length or content. -/
theorem strength_determined_by_score (self : PasswordStrengthChecker)
    (toLowerCase : JSString → JSString) (password : JSString) :
    specStrength (self.analyzePassword toLowerCase password).score
        = some (self.analyzePassword toLowerCase password).strength
      ∧ ∀ other : JSString,
          (self.analyzePassword toLowerCase other).score
              = (self.analyzePassword toLowerCase password).score →
            (self.analyzePassword toLowerCase other).strength
              = (self.analyzePassword toLowerCase password).strength := by
  constructor
  · rw [analyzePassword_strength]
    have h := analyzePassword_score_le self toLowerCase password
    generalize (self.analyzePassword toLowerCase password).score = n at h
    interval_cases n <;> rfl
  · intro other h
    rw [analyzePassword_strength, analyzePassword_strength, h]
    rfl

/-- C3: `isCommonPassword` holds exactly when some entry of the 24-entry
`commonPasswords` list is a contiguous part of the lowercased password or has
the lowercased password as a contiguous part; `noCommon` is its negation; and
two passwords with the same lowercasing get the same result. -/
theorem isCommonPassword_bidirectional (toLowerCase : JSString → JSString)
    (password : JSString) :
    new.commonPasswords.length = 24
      ∧ (new.isCommonPassword toLowerCase password = true ↔
          ∃ c ∈ new.commonPasswords,
            c <:+: toLowerCase password ∨ toLowerCase password <:+: c)
      ∧ (new.analyzePassword toLowerCase password).checks.noCommon
          = !new.isCommonPassword toLowerCase password
      ∧ ∀ other : JSString, toLowerCase other = toLowerCase password →
          new.isCommonPassword toLowerCase other
            = new.isCommonPassword toLowerCase password := by
  refine ⟨rfl, isCommonPassword_iff new toLowerCase password, rfl, ?_⟩
  intro other h
  simp only [isCommonPassword, h]

/-- C4: the six checks that do not read the list are the conditions of the
criteria table: at least 8 code units, at least 12, some code unit in `A-Z`,
some in `a-z`, some in `0-9`, some among the thirty listed special characters;
a space, a backtick or a tilde alone is not special. -/
theorem checks_match_criteria (self : PasswordStrengthChecker)
    (toLowerCase : JSString → JSString) (password : JSString) :
    ((self.analyzePassword toLowerCase password).checks.length = true ↔ 8 ≤ password.length)
      ∧ ((self.analyzePassword toLowerCase password).checks.length12 = true ↔
          12 ≤ password.length)
      ∧ ((self.analyzePassword toLowerCase password).checks.uppercase = true ↔
          ∃ u ∈ password, 'A'.toNat ≤ u ∧ u ≤ 'Z'.toNat)
      ∧ ((self.analyzePassword toLowerCase password).checks.lowercase = true ↔
          ∃ u ∈ password, 'a'.toNat ≤ u ∧ u ≤ 'z'.toNat)
      ∧ ((self.analyzePassword toLowerCase password).checks.numbers = true ↔
          ∃ u ∈ password, '0'.toNat ≤ u ∧ u ≤ '9'.toNat)
      ∧ ((self.analyzePassword toLowerCase password).checks.special = true ↔
          ∃ u ∈ password, u ∈ specSpecialChars)
      ∧ specSpecialChars.length = 30
      ∧ (self.analyzePassword toLowerCase (js " ")).checks.special = false
      ∧ (self.analyzePassword toLowerCase (js "`")).checks.special = false
      ∧ (self.analyzePassword toLowerCase (js "~")).checks.special = false := by
  have hno : ∀ p : JSString, regexTest classSpecial p = false →
      (self.analyzePassword toLowerCase p).checks.special = false := by
    intro p h
    rw [analyzePassword_checks]
    exact h
  rw [analyzePassword_checks]
  refine ⟨by simp, by simp, ?_, ?_, ?_, ?_, rfl, hno _ (by decide), hno _ (by decide),
    hno _ (by decide)⟩
  · have h1 : 'A'.toNat = 0x41 := by decide
    have h2 : 'Z'.toNat = 0x5A := by decide
    simp only [regexTest_iff, classUpper, Bool.and_eq_true, decide_eq_true_eq, h1, h2]
  · have h1 : 'a'.toNat = 0x61 := by decide
    have h2 : 'z'.toNat = 0x7A := by decide
    simp only [regexTest_iff, classLower, Bool.and_eq_true, decide_eq_true_eq, h1, h2]
  · have h1 : '0'.toNat = 0x30 := by decide
    have h2 : '9'.toNat = 0x39 := by decide
    simp only [regexTest_iff, classDigit, Bool.and_eq_true, decide_eq_true_eq, h1, h2]
  · simp only [regexTest_iff, classSpecial_iff]

/-- C5: the suggestions of `analyzePassword` are the eight suggestions in their
fixed order, each kept exactly when its condition holds (length8 false;
length12 false and length8 true; uppercase, lowercase, numbers, special,
noCommon false; length strictly between 0 and 6); none appears twice and the
order is that of the fixed list. -/
theorem suggestions_fixed_order (self : PasswordStrengthChecker)
    (toLowerCase : JSString → JSString) (password : JSString) :
    (self.analyzePassword toLowerCase password).suggestions
        = specSuggestions (self.analyzePassword toLowerCase password).checks password.length
      ∧ (self.analyzePassword toLowerCase password).suggestions.Nodup
      ∧ (self.analyzePassword toLowerCase password).suggestions.Sublist suggestionTexts := by
  have hsub : (self.analyzePassword toLowerCase password).suggestions.Sublist
      suggestionTexts := by
    rw [analyzePassword_suggestions]
    have hlen : (specSuggestionConditions
        (self.analyzePassword toLowerCase password).checks password.length).length
        = suggestionTexts.length := rfl
    have hzip : (((specSuggestionConditions
        (self.analyzePassword toLowerCase password).checks password.length).zip
          suggestionTexts).map fun e => e.2) = suggestionTexts := by
      rw [← List.unzip_snd, List.unzip_zip hlen]
    unfold specSuggestions
    conv_rhs => rw [← hzip]
    exact (List.filter_sublist _).map _
  have hnodup : suggestionTexts.Nodup := by decide
  exact ⟨analyzePassword_suggestions self toLowerCase password, hnodup.sublist hsub, hsub⟩

/-- C6: when a password of fewer than 8 code units is extended to one of at
least 12, the score of the extended password is at least the score of the
original plus 1. -/
theorem score_gains_on_reaching_twelve (self : PasswordStrengthChecker)
    (toLowerCase : JSString → JSString) (p s : JSString)
    (hp : p.length < 8) (hps : 12 ≤ (p ++ s).length) :
    (self.analyzePassword toLowerCase p).score + 1
      ≤ (self.analyzePassword toLowerCase (p ++ s)).score := by
  rw [analyzePassword_score, analyzePassword_score, analyzePassword_checks,
    analyzePassword_checks]
  have h1 : decide (p.length ≥ 8) = false := by simp; omega
  have h2 : decide (p.length ≥ 12) = false := by simp; omega
  have h3 : decide ((p ++ s).length ≥ 8) = true := by simp at hps ⊢; omega
  have h4 : decide ((p ++ s).length ≥ 12) = true := by simpa using hps
  have hU := regexTest_append_le classUpper p s
  have hL := regexTest_append_le classLower p s
  have hD := regexTest_append_le classDigit p s
  have hS := regexTest_append_le classSpecial p s
  have hC : (!self.isCommonPassword toLowerCase p).toNat ≤ 1 := Bool.toNat_le _
  simp only [h1, h2, h3, h4, Bool.toNat_false, Bool.toNat_true]
  omega

/-- Witness for C6: `abc` extended by `defghijkl`. -/
theorem score_gains_on_reaching_twelve_witness :
    (js "abc").length < 8 ∧ 12 ≤ (js "abc" ++ js "defghijkl").length
      ∧ (new.analyzePassword asciiToLowerCase (js "abc")).score + 1
        ≤ (new.analyzePassword asciiToLowerCase (js "abc" ++ js "defghijkl")).score :=
  ⟨by decide, by decide,
    score_gains_on_reaching_twelve new asciiToLowerCase (js "abc") (js "defghijkl")
      (by decide) (by decide)⟩

/-- C7: a password whose lowercasing is a contiguous part of an entry of the
list, or has an entry as a contiguous part, is flagged: `isCommonPassword` is
true and `noCommon` is false.  This covers the fragments `a`, `1` and `abc` and
the password `password123`. -/
theorem fragments_and_extensions_flagged (toLowerCase : JSString → JSString)
    (h : LowersAscii toLowerCase) :
    (∀ password : JSString,
        (∃ c ∈ new.commonPasswords,
          toLowerCase password <:+: c ∨ c <:+: toLowerCase password) →
        new.isCommonPassword toLowerCase password = true
          ∧ (new.analyzePassword toLowerCase password).checks.noCommon = false)
      ∧ (∀ password ∈ [js "a", js "1", js "abc", js "password123"],
          new.isCommonPassword toLowerCase password = true
            ∧ (new.analyzePassword toLowerCase password).checks.noCommon = false) := by
  have key : ∀ password : JSString, new.isCommonPassword toLowerCase password = true →
      new.isCommonPassword toLowerCase password = true
        ∧ (new.analyzePassword toLowerCase password).checks.noCommon = false := by
    intro password hc
    refine ⟨hc, ?_⟩
    rw [analyzePassword_checks]
    simp [hc]
  constructor
  · rintro password ⟨c, hc, hor⟩
    exact key password ((isCommonPassword_iff new toLowerCase password).2 ⟨c, hc, hor.symm⟩)
  · intro password hmem
    apply key
    have hascii : ∀ u ∈ password, u < 0x80 := by
      simp only [List.mem_cons, List.mem_singleton, List.not_mem_nil, or_false] at hmem
      rcases hmem with rfl | rfl | rfl | rfl <;> decide
    rw [isCommonPassword_ascii new toLowerCase h password hascii]
    simp only [List.mem_cons, List.mem_singleton, List.not_mem_nil, or_false] at hmem
    rcases hmem with rfl | rfl | rfl | rfl <;> decide

/-- Witness for C7: the unit-wise ASCII lowercasing. -/
theorem fragments_and_extensions_flagged_witness :
    LowersAscii asciiToLowerCase
      ∧ (∀ password : JSString,
          (∃ c ∈ new.commonPasswords,
            asciiToLowerCase password <:+: c ∨ c <:+: asciiToLowerCase password) →
          new.isCommonPassword asciiToLowerCase password = true
            ∧ (new.analyzePassword asciiToLowerCase password).checks.noCommon = false)
      ∧ (∀ password ∈ [js "a", js "1", js "abc", js "password123"],
          new.isCommonPassword asciiToLowerCase password = true
            ∧ (new.analyzePassword asciiToLowerCase password).checks.noCommon = false) :=
  ⟨lowersAscii_asciiToLowerCase,
    fragments_and_extensions_flagged asciiToLowerCase lowersAscii_asciiToLowerCase⟩

/-- C8: when no code unit of the password is in `A-Z`, `a-z`, `0-9` or the
special set, the uppercase, lowercase, numbers and special checks are all
false, and the score comes from the two length checks and `noCommon` only. -/
theorem neutral_code_units (self : PasswordStrengthChecker)
    (toLowerCase : JSString → JSString) (password : JSString)
    (h : ∀ u ∈ password, ¬('A'.toNat ≤ u ∧ u ≤ 'Z'.toNat) ∧ ¬('a'.toNat ≤ u ∧ u ≤ 'z'.toNat)
      ∧ ¬('0'.toNat ≤ u ∧ u ≤ '9'.toNat) ∧ u ∉ specSpecialChars) :
    (self.analyzePassword toLowerCase password).checks.uppercase = false
      ∧ (self.analyzePassword toLowerCase password).checks.lowercase = false
      ∧ (self.analyzePassword toLowerCase password).checks.numbers = false
      ∧ (self.analyzePassword toLowerCase password).checks.special = false
      ∧ (self.analyzePassword toLowerCase password).score
          = (self.analyzePassword toLowerCase password).checks.length.toNat
            + (self.analyzePassword toLowerCase password).checks.length12.toNat
            + (self.analyzePassword toLowerCase password).checks.noCommon.toNat := by
  have hA : 'A'.toNat = 0x41 := by decide
  have hZ : 'Z'.toNat = 0x5A := by decide
  have ha : 'a'.toNat = 0x61 := by decide
  have hz : 'z'.toNat = 0x7A := by decide
  have h0 : '0'.toNat = 0x30 := by decide
  have h9 : '9'.toNat = 0x39 := by decide
  rw [hA, hZ, ha, hz, h0, h9] at h
  have hU : regexTest classUpper password = false := by
    rw [Bool.eq_false_iff, Ne, regexTest_iff]
    rintro ⟨u, hu, hc⟩
    simp only [classUpper, Bool.and_eq_true, decide_eq_true_eq] at hc
    exact (h u hu).1 hc
  have hL : regexTest classLower password = false := by
    rw [Bool.eq_false_iff, Ne, regexTest_iff]
    rintro ⟨u, hu, hc⟩
    simp only [classLower, Bool.and_eq_true, decide_eq_true_eq] at hc
    exact (h u hu).2.1 hc
  have hD : regexTest classDigit password = false := by
    rw [Bool.eq_false_iff, Ne, regexTest_iff]
    rintro ⟨u, hu, hc⟩
    simp only [classDigit, Bool.and_eq_true, decide_eq_true_eq] at hc
    exact (h u hu).2.2.1 hc
  have hS : regexTest classSpecial password = false := by
    rw [Bool.eq_false_iff, Ne, regexTest_iff]
    rintro ⟨u, hu, hc⟩
    exact (h u hu).2.2.2 ((classSpecial_iff u).1 hc)
  rw [analyzePassword_score, analyzePassword_checks]
  simp only [hU, hL, hD, hS, Bool.toNat_false, Nat.add_zero, and_self, true_and]

/-- Witness for C8: two accented letters around a space. -/
theorem neutral_code_units_witness :
    (∀ u ∈ js "é ü", ¬('A'.toNat ≤ u ∧ u ≤ 'Z'.toNat) ∧ ¬('a'.toNat ≤ u ∧ u ≤ 'z'.toNat)
        ∧ ¬('0'.toNat ≤ u ∧ u ≤ '9'.toNat) ∧ u ∉ specSpecialChars)
      ∧ (new.analyzePassword asciiToLowerCase (js "é ü")).checks.uppercase = false
      ∧ (new.analyzePassword asciiToLowerCase (js "é ü")).checks.lowercase = false
      ∧ (new.analyzePassword asciiToLowerCase (js "é ü")).checks.numbers = false
      ∧ (new.analyzePassword asciiToLowerCase (js "é ü")).checks.special = false
      ∧ (new.analyzePassword asciiToLowerCase (js "é ü")).score
          = (new.analyzePassword asciiToLowerCase (js "é ü")).checks.length.toNat
            + (new.analyzePassword asciiToLowerCase (js "é ü")).checks.length12.toNat
            + (new.analyzePassword asciiToLowerCase (js "é ü")).checks.noCommon.toNat :=
  ⟨by decide, neutral_code_units new asciiToLowerCase (js "é ü") (by decide)⟩

/-- C9, as the code has it: the percentage is the binary64 result of
`(score / 7) * 100`; it is within `2 ^ (-47)` of the rational `score * 100 / 7`
and equal to it only for the scores `0` and `7`; it lies in `[0, 100]`, is `100`
exactly when the score is `7` and `0` exactly when the score is `0`. -/
theorem percentage_binary64 (self : PasswordStrengthChecker)
    (toLowerCase : JSString → JSString) (password : JSString) :
    (self.analyzePassword toLowerCase password).percentage
        = Binary64.mul
            (Binary64.div (Binary64.ofNat (self.analyzePassword toLowerCase password).score)
              (Binary64.ofNat 7))
            (Binary64.ofNat 100)
      ∧ |(self.analyzePassword toLowerCase password).percentage.toRat
          - ((self.analyzePassword toLowerCase password).score : ℚ) * 100 / 7| ≤ 1 / 2 ^ 47
      ∧ ((self.analyzePassword toLowerCase password).percentage.toRat
            = ((self.analyzePassword toLowerCase password).score : ℚ) * 100 / 7 ↔
          (self.analyzePassword toLowerCase password).score = 0
            ∨ (self.analyzePassword toLowerCase password).score = 7)
      ∧ 0 ≤ (self.analyzePassword toLowerCase password).percentage.toRat
      ∧ (self.analyzePassword toLowerCase password).percentage.toRat ≤ 100
      ∧ ((self.analyzePassword toLowerCase password).percentage.toRat = 100 ↔
          (self.analyzePassword toLowerCase password).score = 7)
      ∧ ((self.analyzePassword toLowerCase password).percentage.toRat = 0 ↔
          (self.analyzePassword toLowerCase password).score = 0) := by
  refine ⟨rfl, ?_⟩
  rw [analyzePassword_percentage]
  have hle := analyzePassword_score_le self toLowerCase password
  obtain ⟨t0, t1, t2, t3, t4, t5, t6, t7⟩ := Binary64.percentage_table
  generalize (self.analyzePassword toLowerCase password).score = n at hle
  interval_cases n
  · rw [t0]; simp only [Binary64.toRat]; norm_num [abs_le]
  · rw [t1]; simp only [Binary64.toRat]; norm_num [abs_le]
  · rw [t2]; simp only [Binary64.toRat]; norm_num [abs_le]
  · rw [t3]; simp only [Binary64.toRat]; norm_num [abs_le]
  · rw [t4]; simp only [Binary64.toRat]; norm_num [abs_le]
  · rw [t5]; simp only [Binary64.toRat]; norm_num [abs_le]
  · rw [t6]; simp only [Binary64.toRat]; norm_num [abs_le]
  · rw [t7]; simp only [Binary64.toRat]; norm_num [abs_le]

/-- C9, as stated, fails: for the password `a` the score is `1` and the
percentage, the binary64 number `14.285714285714285`, is not the rational
`100 / 7`. -/
theorem percentage_not_exact_rational :
    (new.analyzePassword asciiToLowerCase (js "a")).score = 1
      ∧ (new.analyzePassword asciiToLowerCase (js "a")).percentage
          = ⟨8042142191733028, -49⟩
      ∧ (new.analyzePassword asciiToLowerCase (js "a")).percentage.toRat
          ≠ ((new.analyzePassword asciiToLowerCase (js "a")).score : ℚ) * 100 / 7 := by
  have hs : (new.analyzePassword asciiToLowerCase (js "a")).score = 1 := by decide
  have hp : (new.analyzePassword asciiToLowerCase (js "a")).percentage
      = ⟨8042142191733028, -49⟩ := by
    rw [analyzePassword_percentage, hs]
    exact Binary64.percentage_table.2.1
  refine ⟨hs, hp, ?_⟩
  rw [hp, hs]
  simp only [Binary64.toRat]
  norm_num

/-- C10: on the empty string `analyzePassword` returns score `0`, all seven
checks false (`noCommon` included), strength `weak`, and suggestions that hold
the advice to use at least 8 characters and not the too-short warning. -/
theorem analyze_empty_string (toLowerCase : JSString → JSString)
    (h : LowersAscii toLowerCase) :
    (new.analyzePassword toLowerCase (js "")).score = 0
      ∧ (new.analyzePassword toLowerCase (js "")).checks
          = { length := false, length12 := false, uppercase := false, lowercase := false,
              numbers := false, special := false, noCommon := false }
      ∧ (new.analyzePassword toLowerCase (js "")).strength = "weak"
      ∧ "Use at least 8 characters" ∈ (new.analyzePassword toLowerCase (js "")).suggestions
      ∧ "Password is too short - very weak security"
          ∉ (new.analyzePassword toLowerCase (js "")).suggestions := by
  rw [analyzePassword_ascii new toLowerCase h (js "") (by decide)]
  decide

/-- Witness for C10: the unit-wise ASCII lowercasing. -/
theorem analyze_empty_string_witness :
    LowersAscii asciiToLowerCase
      ∧ (new.analyzePassword asciiToLowerCase (js "")).score = 0
      ∧ (new.analyzePassword asciiToLowerCase (js "")).checks
          = { length := false, length12 := false, uppercase := false, lowercase := false,
              numbers := false, special := false, noCommon := false }
      ∧ (new.analyzePassword asciiToLowerCase (js "")).strength = "weak"
      ∧ "Use at least 8 characters"
          ∈ (new.analyzePassword asciiToLowerCase (js "")).suggestions
      ∧ "Password is too short - very weak security"
          ∉ (new.analyzePassword asciiToLowerCase (js "")).suggestions :=
  ⟨lowersAscii_asciiToLowerCase, analyze_empty_string asciiToLowerCase lowersAscii_asciiToLowerCase⟩

/-- C11: on `abc` the checks are all false except `lowercase` (`noCommon` is false
because `abc` is a contiguous part of the list entry `abc123`), the score is `1`,
the strength is `weak`, and the suggestions hold the too-short warning. -/
theorem analyze_abc (toLowerCase : JSString → JSString) (h : LowersAscii toLowerCase) :
    (new.analyzePassword toLowerCase (js "abc")).checks
          = { length := false, length12 := false, uppercase := false, lowercase := true,
              numbers := false, special := false, noCommon := false }
      ∧ js "abc123" ∈ new.commonPasswords
      ∧ includes (js "abc123") (js "abc") = true
      ∧ (new.analyzePassword toLowerCase (js "abc")).score = 1
      ∧ (new.analyzePassword toLowerCase (js "abc")).strength = "weak"
      ∧ "Password is too short - very weak security"
          ∈ (new.analyzePassword toLowerCase (js "abc")).suggestions := by
  rw [analyzePassword_ascii new toLowerCase h (js "abc") (by decide)]
  decide

/-- Witness for C11: the unit-wise ASCII lowercasing. -/
theorem analyze_abc_witness :
    LowersAscii asciiToLowerCase
      ∧ (new.analyzePassword asciiToLowerCase (js "abc")).checks
          = { length := false, length12 := false, uppercase := false, lowercase := true,
              numbers := false, special := false, noCommon := false }
      ∧ js "abc123" ∈ new.commonPasswords
      ∧ includes (js "abc123") (js "abc") = true
      ∧ (new.analyzePassword asciiToLowerCase (js "abc")).score = 1
      ∧ (new.analyzePassword asciiToLowerCase (js "abc")).strength = "weak"
      ∧ "Password is too short - very weak security"
          ∈ (new.analyzePassword asciiToLowerCase (js "abc")).suggestions :=
  ⟨lowersAscii_asciiToLowerCase,
    analyze_abc asciiToLowerCase lowersAscii_asciiToLowerCase⟩

/-- C12: on `password`, an entry of the list, `noCommon` is false, `length` and
`lowercase` are true and every other check is false; the score is `2` and the
strength is `weak`. -/
theorem analyze_password (toLowerCase : JSString → JSString) (h : LowersAscii toLowerCase) :
    (new.analyzePassword toLowerCase (js "password")).checks
          = { length := true, length12 := false, uppercase := false, lowercase := true,
              numbers := false, special := false, noCommon := false }
      ∧ js "password" ∈ new.commonPasswords
      ∧ (new.analyzePassword toLowerCase (js "password")).score = 2
      ∧ (new.analyzePassword toLowerCase (js "password")).strength = "weak" := by
  rw [analyzePassword_ascii new toLowerCase h (js "password") (by decide)]
  decide

/-- Witness for C12: the unit-wise ASCII lowercasing. -/
theorem analyze_password_witness :
    LowersAscii asciiToLowerCase
      ∧ (new.analyzePassword asciiToLowerCase (js "password")).checks
          = { length := true, length12 := false, uppercase := false, lowercase := true,
              numbers := false, special := false, noCommon := false }
      ∧ js "password" ∈ new.commonPasswords
      ∧ (new.analyzePassword asciiToLowerCase (js "password")).score = 2
      ∧ (new.analyzePassword asciiToLowerCase (js "password")).strength = "weak" :=
  ⟨lowersAscii_asciiToLowerCase,
    analyze_password asciiToLowerCase lowersAscii_asciiToLowerCase⟩

/-- C13: on `Tr0ub4dor&3XyZ`, of 14 code units, all seven checks are true, the
score is `7`, the strength is `very-strong` and there is no suggestion. -/
theorem analyze_troubador (toLowerCase : JSString → JSString) (h : LowersAscii toLowerCase) :
    (new.analyzePassword toLowerCase (js "Tr0ub4dor&3XyZ")).checks
          = { length := true, length12 := true, uppercase := true, lowercase := true,
              numbers := true, special := true, noCommon := true }
      ∧ (js "Tr0ub4dor&3XyZ").length = 14
      ∧ (new.analyzePassword toLowerCase (js "Tr0ub4dor&3XyZ")).score = 7
      ∧ (new.analyzePassword toLowerCase (js "Tr0ub4dor&3XyZ")).strength = "very-strong"
      ∧ (new.analyzePassword toLowerCase (js "Tr0ub4dor&3XyZ")).suggestions = [] := by
  rw [analyzePassword_ascii new toLowerCase h (js "Tr0ub4dor&3XyZ") (by decide)]
  decide

/-- Witness for C13: the unit-wise ASCII lowercasing. -/
theorem analyze_troubador_witness :
    LowersAscii asciiToLowerCase
      ∧ (new.analyzePassword asciiToLowerCase (js "Tr0ub4dor&3XyZ")).checks
          = { length := true, length12 := true, uppercase := true, lowercase := true,
              numbers := true, special := true, noCommon := true }
      ∧ (js "Tr0ub4dor&3XyZ").length = 14
      ∧ (new.analyzePassword asciiToLowerCase (js "Tr0ub4dor&3XyZ")).score = 7
      ∧ (new.analyzePassword asciiToLowerCase (js "Tr0ub4dor&3XyZ")).strength = "very-strong"
      ∧ (new.analyzePassword asciiToLowerCase (js "Tr0ub4dor&3XyZ")).suggestions = [] :=
  ⟨lowersAscii_asciiToLowerCase,
    analyze_troubador asciiToLowerCase lowersAscii_asciiToLowerCase⟩

/-- C14: on `qwerty123456`, which has the list entry `qwerty123` as a contiguous
part, `length`, `length12`, `lowercase` and `numbers` are true, `uppercase`,
`special` and `noCommon` are false, the score is `4` and the strength is `good`. -/
theorem analyze_qwerty123456 (toLowerCase : JSString → JSString) (h : LowersAscii toLowerCase) :
    (new.analyzePassword toLowerCase (js "qwerty123456")).checks
          = { length := true, length12 := true, uppercase := false, lowercase := true,
              numbers := true, special := false, noCommon := false }
      ∧ js "qwerty123" ∈ new.commonPasswords
      ∧ includes (js "qwerty123456") (js "qwerty123") = true
      ∧ (new.analyzePassword toLowerCase (js "qwerty123456")).score = 4
      ∧ (new.analyzePassword toLowerCase (js "qwerty123456")).strength = "good" := by
  rw [analyzePassword_ascii new toLowerCase h (js "qwerty123456") (by decide)]
  decide

/-- Witness for C14: the unit-wise ASCII lowercasing. -/
theorem analyze_qwerty123456_witness :
    LowersAscii asciiToLowerCase
      ∧ (new.analyzePassword asciiToLowerCase (js "qwerty123456")).checks
          = { length := true, length12 := true, uppercase := false, lowercase := true,
              numbers := true, special := false, noCommon := false }
      ∧ js "qwerty123" ∈ new.commonPasswords
      ∧ includes (js "qwerty123456") (js "qwerty123") = true
      ∧ (new.analyzePassword asciiToLowerCase (js "qwerty123456")).score = 4
      ∧ (new.analyzePassword asciiToLowerCase (js "qwerty123456")).strength = "good" :=
  ⟨lowersAscii_asciiToLowerCase,
    analyze_qwerty123456 asciiToLowerCase lowersAscii_asciiToLowerCase⟩

/-- C15: `analyzePassword` is deterministic and keeps no hidden state.  A
call, run as a program over the object, returns the report of the function
`analyzePassword` and the object it was made on; in any sequence of calls on
one object each report is the report of a single call with the same password,
so two calls with the same string, whatever calls come before or between them,
return reports equal in every field (checks, score, maxScore, strength,
percentage, suggestions); and the `commonPasswords` list after a call, or after
any sequence of calls, is the list before. -/
theorem analyzePassword_deterministic (toLowerCase : JSString → JSString)
    (self : PasswordStrengthChecker) (before between : List JSString) (password : JSString) :
    (analyzePasswordCall toLowerCase self password).1
        = self.analyzePassword toLowerCase password
      ∧ (runCalls toLowerCase self (before ++ password :: between)).1
        = (before ++ password :: between).map
            (fun p => (analyzePasswordCall toLowerCase self p).1)
      ∧ (analyzePasswordCall toLowerCase (runCalls toLowerCase self before).2 password).1
        = (analyzePasswordCall toLowerCase
            (runCalls toLowerCase self (before ++ password :: between)).2 password).1
      ∧ (analyzePasswordCall toLowerCase self password).2.commonPasswords
        = self.commonPasswords
      ∧ (runCalls toLowerCase self
          (before ++ password :: between ++ [password])).2.commonPasswords
        = self.commonPasswords := by
  refine ⟨?_, runCalls_fst toLowerCase self _, ?_, ?_, ?_⟩
  · rw [analyzePasswordCall_eq]
  · rw [runCalls_snd, runCalls_snd]
  · rw [analyzePasswordCall_eq]
  · rw [runCalls_snd]

/-- C16, as the code has it: the texts pushed by `analyzePassword` are
`Use at least 8 characters` when length8 fails,
`Consider using 12+ characters for better security` when length12 fails and
length8 holds, and `Add uppercase letters`, `Add lowercase letters`,
`Include numbers`, `Add special characters (!@#$%^&*)` and
`Avoid common passwords` for the corresponding failed checks. -/
theorem suggestion_texts_of_code (self : PasswordStrengthChecker)
    (toLowerCase : JSString → JSString) (password : JSString) :
    ("Use at least 8 characters" ∈ (self.analyzePassword toLowerCase password).suggestions ↔
        (self.analyzePassword toLowerCase password).checks.length = false)
      ∧ ("Consider using 12+ characters for better security"
            ∈ (self.analyzePassword toLowerCase password).suggestions ↔
          (self.analyzePassword toLowerCase password).checks.length12 = false
            ∧ (self.analyzePassword toLowerCase password).checks.length = true)
      ∧ ("Add uppercase letters" ∈ (self.analyzePassword toLowerCase password).suggestions ↔
          (self.analyzePassword toLowerCase password).checks.uppercase = false)
      ∧ ("Add lowercase letters" ∈ (self.analyzePassword toLowerCase password).suggestions ↔
          (self.analyzePassword toLowerCase password).checks.lowercase = false)
      ∧ ("Include numbers" ∈ (self.analyzePassword toLowerCase password).suggestions ↔
          (self.analyzePassword toLowerCase password).checks.numbers = false)
      ∧ ("Add special characters (!@#$%^&*)"
            ∈ (self.analyzePassword toLowerCase password).suggestions ↔
          (self.analyzePassword toLowerCase password).checks.special = false)
      ∧ ("Avoid common passwords" ∈ (self.analyzePassword toLowerCase password).suggestions ↔
          (self.analyzePassword toLowerCase password).checks.noCommon = false) := by
  rw [analyzePassword_suggestions]
  obtain ⟨h1, h2, h3, h4, h5, h6, h7, _⟩ :=
    mem_specSuggestions (self.analyzePassword toLowerCase password).checks password.length
  exact ⟨h1, h2, h3, h4, h5, h6, h7⟩

/-- C16, as stated, fails: on `qwertyui` the checks length12, uppercase,
numbers, special and noCommon fail and length8 holds, yet none of the texts of
the specification is among the suggestions, which are the texts of the code. -/
theorem spec_suggestion_texts_absent :
    (new.analyzePassword asciiToLowerCase (js "qwertyui")).checks
        = { length := true, length12 := false, uppercase := false, lowercase := true,
            numbers := false, special := false, noCommon := false }
      ∧ (∀ t ∈ specSuggestionTexts,
          t ∉ (new.analyzePassword asciiToLowerCase (js "qwertyui")).suggestions)
      ∧ (new.analyzePassword asciiToLowerCase (js "qwertyui")).suggestions
        = [ "Consider using 12+ characters for better security",
            "Add uppercase letters",
            "Include numbers",
            "Add special characters (!@#$%^&*)",
            "Avoid common passwords" ] := by
  decide

/-- C17: the suggestions are empty exactly when the score is `7`, which is
exactly when the strength is `very-strong`; a password rated below
`very-strong` gets at least one suggestion. -/
theorem no_suggestion_iff_very_strong (self : PasswordStrengthChecker)
    (toLowerCase : JSString → JSString) (password : JSString) :
    ((self.analyzePassword toLowerCase password).suggestions = [] ↔
        (self.analyzePassword toLowerCase password).score = 7)
      ∧ ((self.analyzePassword toLowerCase password).score = 7 ↔
          (self.analyzePassword toLowerCase password).strength = "very-strong")
      ∧ ((self.analyzePassword toLowerCase password).strength = "very-strong"
          ∨ 1 ≤ (self.analyzePassword toLowerCase password).suggestions.length) := by
  have hempty : (self.analyzePassword toLowerCase password).suggestions = [] ↔
      (self.analyzePassword toLowerCase password).score = 7 := by
    rw [analyzePassword_suggestions, specSuggestions_eq_nil_iff, analyzePassword_score]
    have hlen : (self.analyzePassword toLowerCase password).checks.length
        = decide (password.length ≥ 8) := rfl
    generalize (self.analyzePassword toLowerCase password).checks = c at hlen ⊢
    rcases c with ⟨b1, b2, b3, b4, b5, b6, b7⟩
    simp only at hlen
    constructor
    · rintro ⟨hc, _⟩
      rw [hc]
      rfl
    · intro hs
      have hall : b1 = true ∧ b2 = true ∧ b3 = true ∧ b4 = true ∧ b5 = true ∧ b6 = true
          ∧ b7 = true := by
        revert hs
        cases b1 <;> cases b2 <;> cases b3 <;> cases b4 <;> cases b5 <;> cases b6 <;>
          cases b7 <;> decide
      obtain ⟨rfl, rfl, rfl, rfl, rfl, rfl, rfl⟩ := hall
      refine ⟨rfl, ?_⟩
      have h8 : password.length ≥ 8 := of_decide_eq_true hlen.symm
      omega
  have hstrong : (self.analyzePassword toLowerCase password).score = 7 ↔
      (self.analyzePassword toLowerCase password).strength = "very-strong" := by
    rw [analyzePassword_strength, calculateStrength_very_strong_iff]
    have hle := analyzePassword_score_le self toLowerCase password
    omega
  refine ⟨hempty, hstrong, ?_⟩
  by_cases hs : (self.analyzePassword toLowerCase password).score = 7
  · exact Or.inl (hstrong.1 hs)
  · right
    have hne : (self.analyzePassword toLowerCase password).suggestions ≠ [] :=
      fun he => hs (hempty.1 he)
    exact List.length_pos.2 hne

/-- C18: a password of fewer than 8 code units has score at most `5` and is
never `very-strong`; the bound is attained by `Aa1!`, which has score `5` and
strength `strong` while its suggestions hold the warning
`Password is too short - very weak security`. -/
theorem short_password_score_bound (toLowerCase : JSString → JSString)
    (h : LowersAscii toLowerCase) :
    (∀ (self : PasswordStrengthChecker) (password : JSString), password.length < 8 →
        (self.analyzePassword toLowerCase password).score ≤ 5
          ∧ (self.analyzePassword toLowerCase password).strength ≠ "very-strong")
      ∧ (js "Aa1!").length < 8
      ∧ (new.analyzePassword toLowerCase (js "Aa1!")).score = 5
      ∧ (new.analyzePassword toLowerCase (js "Aa1!")).strength = "strong"
      ∧ "Password is too short - very weak security"
          ∈ (new.analyzePassword toLowerCase (js "Aa1!")).suggestions := by
  constructor
  · intro self password hlt
    have hs : (self.analyzePassword toLowerCase password).score ≤ 5 := by
      rw [analyzePassword_score, analyzePassword_checks]
      have h1 : decide (password.length ≥ 8) = false := by simp; omega
      have h2 : decide (password.length ≥ 12) = false := by simp; omega
      have hU : (regexTest classUpper password).toNat ≤ 1 := Bool.toNat_le _
      have hL : (regexTest classLower password).toNat ≤ 1 := Bool.toNat_le _
      have hD : (regexTest classDigit password).toNat ≤ 1 := Bool.toNat_le _
      have hS : (regexTest classSpecial password).toNat ≤ 1 := Bool.toNat_le _
      have hC : (!self.isCommonPassword toLowerCase password).toNat ≤ 1 := Bool.toNat_le _
      simp only [h1, h2, Bool.toNat_false]
      omega
    refine ⟨hs, ?_⟩
    rw [analyzePassword_strength, Ne, calculateStrength_very_strong_iff]
    omega
  · rw [analyzePassword_ascii new toLowerCase h (js "Aa1!") (by decide)]
    decide

/-- Witness for C18: the unit-wise ASCII lowercasing. -/
theorem short_password_score_bound_witness :
    LowersAscii asciiToLowerCase
      ∧ (∀ (self : PasswordStrengthChecker) (password : JSString), password.length < 8 →
          (self.analyzePassword asciiToLowerCase password).score ≤ 5
            ∧ (self.analyzePassword asciiToLowerCase password).strength ≠ "very-strong")
      ∧ (js "Aa1!").length < 8
      ∧ (new.analyzePassword asciiToLowerCase (js "Aa1!")).score = 5
      ∧ (new.analyzePassword asciiToLowerCase (js "Aa1!")).strength = "strong"
      ∧ "Password is too short - very weak security"
          ∈ (new.analyzePassword asciiToLowerCase (js "Aa1!")).suggestions :=
  ⟨lowersAscii_asciiToLowerCase,
    short_password_score_bound asciiToLowerCase lowersAscii_asciiToLowerCase⟩

/-- C19: the advice to use at least 8 characters and the advice to consider
12+ characters never both appear; the too-short warning appears only together
with the advice to use at least 8 characters; and the suggestions never have
more than 7 entries. -/
theorem suggestions_exclusive_and_bounded (self : PasswordStrengthChecker)
    (toLowerCase : JSString → JSString) (password : JSString) :
    ¬("Use at least 8 characters" ∈ (self.analyzePassword toLowerCase password).suggestions
        ∧ "Consider using 12+ characters for better security"
            ∈ (self.analyzePassword toLowerCase password).suggestions)
      ∧ ("Password is too short - very weak security"
            ∉ (self.analyzePassword toLowerCase password).suggestions
          ∨ "Use at least 8 characters"
            ∈ (self.analyzePassword toLowerCase password).suggestions)
      ∧ (self.analyzePassword toLowerCase password).suggestions.length ≤ 7 := by
  rw [analyzePassword_suggestions]
  obtain ⟨h1, h2, _, _, _, _, _, h8⟩ :=
    mem_specSuggestions (self.analyzePassword toLowerCase password).checks password.length
  refine ⟨?_, ?_, specSuggestions_length_le _ _⟩
  · rw [h1, h2]
    rintro ⟨ha, _, hb⟩
    rw [ha] at hb
    exact Bool.false_ne_true hb
  · rw [h1, h8, analyzePassword_checks]
    by_cases hshort : 0 < password.length ∧ password.length < 6
    · right
      simp only [decide_eq_false_iff_not]
      omega
    · exact Or.inl hshort

end PasswordStrength
